import Mathlib

/-!
# UPI payment-address service: shallow embedding and verified properties

The embedding follows `service/upi_service.go`, `repository/upi_repo.go`,
`repository/indexes.go` and `model/upi.go`.

* Service and repository methods are state-passing functions over a `World`
  (the four MongoDB collections, the number of clock readings taken so far and
  the number of driver calls made so far).
* What the program cannot decide itself is supplied by an `Env`: the wall-clock
  reading of every `time.Now()` call, the external failure (if any) of every
  driver call, and the Unicode lower-case table used by `strings.ToLower`
  outside ASCII.
* `float64` amounts are IEEE-754 bit patterns; only their comparison with zero
  is ever computed by the program.
* `int64` values are integers, wrapped with `wrapInt64` where the program does
  arithmetic on them.
-/

namespace UPI

/-! ## Primitive types -/

/-- Go `float64`, given by its IEEE-754 binary64 bit pattern (taken modulo `2^64`). -/
structure Float64 where
  bits : Nat
  deriving DecidableEq, Repr

namespace Float64

/-- Sign bit (bit 63). -/
def sign (x : Float64) : Nat := x.bits / 2 ^ 63 % 2

/-- Biased exponent (bits 52..62). -/
def expo (x : Float64) : Nat := x.bits / 2 ^ 52 % 2 ^ 11

/-- Fraction field (bits 0..51). -/
def frac (x : Float64) : Nat := x.bits % 2 ^ 52

/-- Not-a-number: exponent all ones, fraction non-zero. -/
def isNaN (x : Float64) : Bool := x.expo == 2047 && x.frac != 0

/-- Positive or negative zero. -/
def isZero (x : Float64) : Bool := x.expo == 0 && x.frac == 0

/-- Go `x <= 0` on `float64`: false for NaN, true for both zeros and every negative value. -/
def leZero (x : Float64) : Bool := !x.isNaN && (x.sign == 1 || x.isZero)

/-- Go `x > 0` on `float64`: false for NaN and zeros, true for every positive value. -/
def gtZero (x : Float64) : Bool := !x.isNaN && x.sign == 0 && !x.isZero

end Float64

/-- Go `time.Time`, as the wall-clock reading in nanoseconds since the Unix epoch. -/
abbrev Time := Int

/-- The zero `time.Time` (January 1, year 1, 00:00:00 UTC). -/
def zeroTime : Time := -62135596800000000000

/-- Go `time.Hour`, a `time.Duration` in nanoseconds. -/
def Hour : Int := 3600000000000

/-- Go `Time.Add`. -/
def Time.Add (t : Time) (d : Int) : Time := t + d

/-- The driver writes a `time.Time` as a BSON datetime: whole milliseconds since the Unix
epoch (`t.Unix()*1000 + t.Nanosecond()/1000000`, which rounds down). The result is given
in nanoseconds, as the time a reader of the document gets back. -/
def bsonTime (t : Time) : Time := t / 1000000 * 1000000

/-- Two's-complement wrap-around of an integer into the `int64` range. -/
def wrapInt64 (x : Int) : Int := (x + 2 ^ 63) % 2 ^ 64 - 2 ^ 63

/-- Go `Time.UnixNano`: the reading as an `int64`. -/
def UnixNano (t : Time) : Int := wrapInt64 t

/-- BSON `ObjectID`: twelve bytes. -/
structure ObjectID where
  bytes : List Nat
  deriving DecidableEq, Repr

/-- The zero `ObjectID` (`bson.NilObjectID`). -/
def NilObjectID : ObjectID := ⟨List.replicate 12 0⟩

/-- Value of one hexadecimal digit, as `encoding/hex` reads it. -/
def hexVal (c : Char) : Option Nat :=
  if '0' ≤ c ∧ c ≤ '9' then some (c.toNat - '0'.toNat)
  else if 'a' ≤ c ∧ c ≤ 'f' then some (c.toNat - 'a'.toNat + 10)
  else if 'A' ≤ c ∧ c ≤ 'F' then some (c.toNat - 'A'.toNat + 10)
  else none

/-- Decoding of a hexadecimal string into bytes (`hex.Decode`). -/
def hexDecode : List Char → Option (List Nat)
  | [] => some []
  | [_] => none
  | a :: b :: rest =>
    match hexVal a, hexVal b, hexDecode rest with
    | some hi, some lo, some tl => some ((hi * 16 + lo) :: tl)
    | _, _, _ => none

/-- Library function `bson.ObjectIDFromHex`: the string must be exactly 24 bytes long and
consist of hexadecimal digits. `none` stands for the library's error. -/
def ObjectIDFromHex (s : String) : Option ObjectID :=
  if s.utf8ByteSize ≠ 24 then none
  else match hexDecode s.data with
    | some bs => some ⟨bs⟩
    | none => none

/-! ## Errors -/

/-- Errors produced by the MongoDB driver. -/
inductive MongoErr where
  /-- A write rejected by a unique index (E11000), recognised by `mongo.IsDuplicateKeyError`. -/
  | DuplicateKey
  /-- Value of `mongo.ErrNoDocuments`. -/
  | ErrNoDocuments
  /-- A command rejected by the server because of an invalid argument. -/
  | BadValue
  /-- Any other failure (network, timeout, cancellation, ...). -/
  | Other (msg : String)
  deriving DecidableEq, Repr

/-- Go `error` values that flow through the service. -/
inductive Err where
  | ErrVPANotFound
  | ErrVPAExists
  | ErrUnauthorized
  | ErrInvalidAmount
  /-- An error made on the spot with `errors.New(msg)`. -/
  | New (msg : String)
  /-- An error coming from the driver. -/
  | Mongo (e : MongoErr)
  deriving DecidableEq, Repr

/-- Library function `mongo.IsDuplicateKeyError`. -/
def IsDuplicateKeyError : Err → Bool
  | .Mongo .DuplicateKey => true
  | _ => false

/-- Test `errors.Is(err, mongo.ErrNoDocuments)`. -/
def IsErrNoDocuments : Err → Bool
  | .Mongo .ErrNoDocuments => true
  | _ => false

/-! ## Data model (`model/upi.go`) -/

structure VPA where
  ID : ObjectID
  UserID : ObjectID
  Address : String
  AccountID : String
  IsDefault : Bool
  IsActive : Bool
  CreatedAt : Time
  UpdatedAt : Time
  deriving DecidableEq, Repr

structure UPITransaction where
  ID : ObjectID
  UserID : ObjectID
  TxnID : String
  /-- Field `Type` of the source (a reserved word here). -/
  Type_ : String
  FromVPA : String
  ToVPA : String
  Amount : Float64
  Note : String
  Status : String
  FailureReason : String
  TransactionDate : Time
  CreatedAt : Time
  deriving DecidableEq, Repr

structure Mandate where
  ID : ObjectID
  UserID : ObjectID
  MandateID : String
  PayerVPA : String
  PayeeVPA : String
  Amount : Float64
  Frequency : String
  StartDate : Time
  EndDate : Time
  Purpose : String
  Status : String
  CreatedAt : Time
  UpdatedAt : Time
  deriving DecidableEq, Repr

structure CollectRequest where
  ID : ObjectID
  UserID : ObjectID
  FromVPA : String
  ToVPA : String
  Amount : Float64
  Note : String
  Status : String
  ExpiresAt : Time
  CreatedAt : Time
  deriving DecidableEq, Repr

structure CreateVPARequest where
  Prefix : String
  AccountID : String
  deriving DecidableEq, Repr

structure UPIPayRequest where
  ToVPA : String
  Amount : Float64
  Note : String
  deriving DecidableEq, Repr

structure CollectRequestInput where
  FromVPA : String
  Amount : Float64
  Note : String
  deriving DecidableEq, Repr

structure CreateMandateRequest where
  PayeeVPA : String
  Amount : Float64
  Frequency : String
  StartDate : Time
  EndDate : Time
  Purpose : String
  deriving DecidableEq, Repr

structure VPAValidateResponse where
  VPA : String
  Name : String
  Valid : Bool
  deriving DecidableEq, Repr

/-! ## Environment and state -/

/-- Everything decided outside the program. -/
structure Env where
  /-- Reading returned by the `n`-th call of `time.Now()`. -/
  clock : Nat → Time
  /-- External failure of the `n`-th driver call, if any. A failed call has no effect. -/
  fault : Nat → Option MongoErr
  /-- Table `unicode.ToLower` outside ASCII. -/
  lowerRune : Char → Char

/-- The four collections of database `banking_upi`, each in its natural order. The `_id`
that the driver generates for a stored document is not tracked. A document of
`collect_requests` holds its times as stored, in whole milliseconds; the other collections
hold the records as they are handed to `InsertOne`. -/
structure DB where
  vpas : List VPA
  upi_transactions : List UPITransaction
  mandates : List Mandate
  collect_requests : List CollectRequest
  deriving DecidableEq, Repr

structure World where
  db : DB
  /-- Number of `time.Now()` calls made so far. -/
  tick : Nat
  /-- Number of driver calls made so far. -/
  ops : Nat
  deriving DecidableEq, Repr

/-- State after one more clock reading. -/
def World.tock (w : World) : World := { w with tick := w.tick + 1 }

/-- State after one more driver call. -/
def World.op (w : World) : World := { w with ops := w.ops + 1 }

/-- Go `time.Now()`. -/
def timeNow (env : Env) (w : World) : Time × World := (env.clock w.tick, w.tock)

/-! ## MongoDB driver calls

Model of the driver's contract for the calls the repositories make. Every call consumes one
entry of `Env.fault`; a call that is failed from outside returns that error and changes
nothing. Collections are kept in natural (insertion) order. -/

/-- Call `InsertOne` on `vpas`, which has a unique index on `address` (`CreateIndexes`). -/
def vpas_InsertOne (env : Env) (w : World) (v : VPA) : Option Err × World :=
  match env.fault w.ops with
  | some e => (some (.Mongo e), w.op)
  | none =>
    if w.db.vpas.any (fun x => x.Address == v.Address) then
      (some (.Mongo .DuplicateKey), w.op)
    else (none, { w.op with db := { w.db with vpas := w.db.vpas ++ [v] } })

/-- Call `FindOne` with filter `{address, is_active: true}` on `vpas`, followed by `Decode`. -/
def vpas_FindOne (env : Env) (w : World) (address : String) : Except Err VPA × World :=
  match env.fault w.ops with
  | some e => (.error (.Mongo e), w.op)
  | none =>
    match w.db.vpas.find? (fun v => v.Address == address && v.IsActive) with
    | some v => (.ok v, w.op)
    | none => (.error (.Mongo .ErrNoDocuments), w.op)

/-- Call `Find` with filter `{user_id, is_active: true}` on `vpas`; the result is the content
of the cursor. -/
def vpas_Find (env : Env) (w : World) (userID : ObjectID) : Except Err (List VPA) × World :=
  match env.fault w.ops with
  | some e => (.error (.Mongo e), w.op)
  | none => (.ok (w.db.vpas.filter (fun v => v.UserID == userID && v.IsActive)), w.op)

/-- Call `cursor.All`: on success the destination slice holds every document of the cursor;
on failure the destination is left untouched and the error is returned. -/
def cursor_All {α : Type} (env : Env) (w : World) (docs : List α) :
    Except Err (List α) × World :=
  match env.fault w.ops with
  | some e => (.error (.Mongo e), w.op)
  | none => (.ok docs, w.op)

/-- Call `InsertOne` on `upi_transactions`, which has a unique index on `txn_id`. -/
def txns_InsertOne (env : Env) (w : World) (t : UPITransaction) : Option Err × World :=
  match env.fault w.ops with
  | some e => (some (.Mongo e), w.op)
  | none =>
    if w.db.upi_transactions.any (fun x => x.TxnID == t.TxnID) then
      (some (.Mongo .DuplicateKey), w.op)
    else (none, { w.op with db := { w.db with upi_transactions := w.db.upi_transactions ++ [t] } })

/-- Call `CountDocuments` with filter `{user_id}` on `upi_transactions`. -/
def txns_CountDocuments (env : Env) (w : World) (userID : ObjectID) : Except Err Int × World :=
  match env.fault w.ops with
  | some e => (.error (.Mongo e), w.op)
  | none => (.ok ((w.db.upi_transactions.filter (fun t => t.UserID == userID)).length), w.op)

/-- Sort order `{transaction_date: -1}`: later dates first. -/
def dateDesc (a b : UPITransaction) : Prop := b.TransactionDate ≤ a.TransactionDate

instance : DecidableRel dateDesc := fun a b =>
  inferInstanceAs (Decidable (b.TransactionDate ≤ a.TransactionDate))

instance : IsTotal UPITransaction dateDesc :=
  ⟨fun a b => le_total b.TransactionDate a.TransactionDate⟩

instance : IsTrans UPITransaction dateDesc :=
  ⟨fun _ _ _ hab hbc => le_trans (α := Int) hbc hab⟩

/-- Call `Find` with filter `{user_id}` on `upi_transactions`, sorted by `transaction_date`
descending, with the given `skip` and `limit` options. The server rejects a negative skip;
limit `0` means no limit and a negative limit is taken by its absolute value. Documents
with equal dates stay in natural order. -/
def txns_Find (env : Env) (w : World) (userID : ObjectID) (skip limit : Int) :
    Except Err (List UPITransaction) × World :=
  match env.fault w.ops with
  | some e => (.error (.Mongo e), w.op)
  | none =>
    if skip < 0 then (.error (.Mongo .BadValue), w.op)
    else
      let sorted := (w.db.upi_transactions.filter (fun t => t.UserID == userID)).insertionSort
        dateDesc
      let rest := sorted.drop skip.toNat
      (.ok (if limit = 0 then rest else rest.take limit.natAbs), w.op)

/-- Call `InsertOne` on `mandates`, which has a unique index on `mandate_id`. -/
def mandates_InsertOne (env : Env) (w : World) (m : Mandate) : Option Err × World :=
  match env.fault w.ops with
  | some e => (some (.Mongo e), w.op)
  | none =>
    if w.db.mandates.any (fun x => x.MandateID == m.MandateID) then
      (some (.Mongo .DuplicateKey), w.op)
    else (none, { w.op with db := { w.db with mandates := w.db.mandates ++ [m] } })

/-- Call `Find` with filter `{user_id}` on `mandates`. -/
def mandates_Find (env : Env) (w : World) (userID : ObjectID) :
    Except Err (List Mandate) × World :=
  match env.fault w.ops with
  | some e => (.error (.Mongo e), w.op)
  | none => (.ok (w.db.mandates.filter (fun m => m.UserID == userID)), w.op)

/-- Call `InsertOne` on `collect_requests` (no unique index besides `_id`). The stored
document holds `expires_at` and `created_at` as BSON datetimes; the record of the caller is
not changed. -/
def collects_InsertOne (env : Env) (w : World) (c : CollectRequest) : Option Err × World :=
  match env.fault w.ops with
  | some e => (some (.Mongo e), w.op)
  | none =>
    (none, { w.op with db := { w.db with collect_requests := w.db.collect_requests ++
      [{ c with ExpiresAt := bsonTime c.ExpiresAt, CreatedAt := bsonTime c.CreatedAt }] } })

/-! ## Repositories (`repository/upi_repo.go`)

A `Create` method returns its error, the record as the method leaves it (it stamps the
record through the pointer it is given) and the new state. -/

namespace vpaRepo

def Create (env : Env) (w : World) (v : VPA) : Option Err × VPA × World :=
  let v1 := { v with CreatedAt := (timeNow env w).1 }
  let w1 := (timeNow env w).2
  let v2 := { v1 with UpdatedAt := (timeNow env w1).1 }
  let w2 := (timeNow env w1).2
  ((vpas_InsertOne env w2 v2).1, v2, (vpas_InsertOne env w2 v2).2)

def FindByAddress (env : Env) (w : World) (address : String) : Except Err VPA × World :=
  vpas_FindOne env w address

def FindByUserID (env : Env) (w : World) (userID : ObjectID) : Except Err (List VPA) × World :=
  match vpas_Find env w userID with
  | (.error err, w1) => (.error err, w1)
  | (.ok cursor, w1) =>
    match cursor_All env w1 cursor with
    | (.ok vpas, w2) => (.ok vpas, w2)
    | (.error _, w2) => (.ok [], w2)

end vpaRepo

namespace txnRepo

def Create (env : Env) (w : World) (t : UPITransaction) : Option Err × UPITransaction × World :=
  let t1 := { t with CreatedAt := (timeNow env w).1 }
  let w1 := (timeNow env w).2
  ((txns_InsertOne env w1 t1).1, t1, (txns_InsertOne env w1 t1).2)

def FindByUserID (env : Env) (w : World) (userID : ObjectID) (page limit : Int) :
    Except Err (List UPITransaction × Int) × World :=
  let total : Int :=
    match (txns_CountDocuments env w userID).1 with
    | .ok n => n
    | .error _ => 0
  let w1 := (txns_CountDocuments env w userID).2
  let skip := wrapInt64 (wrapInt64 (page - 1) * limit)
  match txns_Find env w1 userID skip limit with
  | (.error err, w2) => (.error err, w2)
  | (.ok cursor, w2) =>
    match cursor_All env w2 cursor with
    | (.ok txns, w3) => (.ok (txns, total), w3)
    | (.error _, w3) => (.ok ([], total), w3)

end txnRepo

namespace mandateRepo

def Create (env : Env) (w : World) (m : Mandate) : Option Err × Mandate × World :=
  let m1 := { m with CreatedAt := (timeNow env w).1 }
  let w1 := (timeNow env w).2
  let m2 := { m1 with UpdatedAt := (timeNow env w1).1 }
  let w2 := (timeNow env w1).2
  ((mandates_InsertOne env w2 m2).1, m2, (mandates_InsertOne env w2 m2).2)

def FindByUserID (env : Env) (w : World) (userID : ObjectID) :
    Except Err (List Mandate) × World :=
  match mandates_Find env w userID with
  | (.error err, w1) => (.error err, w1)
  | (.ok cursor, w1) =>
    match cursor_All env w1 cursor with
    | (.ok mandates, w2) => (.ok mandates, w2)
    | (.error _, w2) => (.ok [], w2)

end mandateRepo

namespace collectRepo

def Create (env : Env) (w : World) (c : CollectRequest) :
    Option Err × CollectRequest × World :=
  let c1 := { c with CreatedAt := (timeNow env w).1 }
  let w1 := (timeNow env w).2
  ((collects_InsertOne env w1 c1).1, c1, (collects_InsertOne env w1 c1).2)

end collectRepo

/-! ## Service (`service/upi_service.go`) -/

def bankSuffix : String := "@digitalbank"

/-- Library function `unicode.ToLower`: the ASCII rule is fixed, the rest is table lookup. -/
def unicodeToLower (env : Env) (c : Char) : Char :=
  if c.toNat ≤ 127 then
    if 'A' ≤ c ∧ c ≤ 'Z' then Char.ofNat (c.toNat + ('a'.toNat - 'A'.toNat)) else c
  else env.lowerRune c

/-- Library function `strings.ToLower` on a valid UTF-8 string: every rune is mapped by
`unicode.ToLower`. -/
def ToLower (env : Env) (s : String) : String := ⟨s.data.map (unicodeToLower env)⟩

/-- The loop `for _, v := range vpas { if v.IsDefault { addr = v.Address; break } }` of
`Pay` and `Collect`, started with `addr` already set; the result is the final `addr`. -/
def rangeDefault (addr : String) : List VPA → String
  | [] => addr
  | v :: rest => if v.IsDefault then v.Address else rangeDefault addr rest

def generateTxnID (env : Env) (w : World) : String × World :=
  ("UPI" ++ toString (UnixNano (timeNow env w).1), (timeNow env w).2)

def generateMandateID (env : Env) (w : World) : String × World :=
  ("MND" ++ toString (UnixNano (timeNow env w).1), (timeNow env w).2)

namespace upiService

def CreateVPA (env : Env) (w : World) (userID : String) (req : CreateVPARequest) :
    Except Err VPA × World :=
  match ObjectIDFromHex userID with
  | none => (.error .ErrUnauthorized, w)
  | some oid =>
    let address := ToLower env req.Prefix ++ bankSuffix
    let vpa : VPA :=
      { ID := NilObjectID, UserID := oid, Address := address, AccountID := req.AccountID,
        IsDefault := true, IsActive := true, CreatedAt := zeroTime, UpdatedAt := zeroTime }
    match vpaRepo.Create env w vpa with
    | (some err, _, w1) =>
      if IsDuplicateKeyError err then (.error .ErrVPAExists, w1) else (.error err, w1)
    | (none, vpa1, w1) => (.ok vpa1, w1)

def GetVPAs (env : Env) (w : World) (userID : String) : Except Err (List VPA) × World :=
  match ObjectIDFromHex userID with
  | none => (.error .ErrUnauthorized, w)
  | some oid => vpaRepo.FindByUserID env w oid

def ValidateVPA (env : Env) (w : World) (address : String) :
    Except Err VPAValidateResponse × World :=
  match vpaRepo.FindByAddress env w address with
  | (.error err, w1) =>
    if IsErrNoDocuments err then (.ok { VPA := address, Name := "", Valid := false }, w1)
    else (.error err, w1)
  | (.ok vpa, w1) => (.ok { VPA := vpa.Address, Name := "Verified User", Valid := true }, w1)

def Pay (env : Env) (w : World) (userID : String) (req : UPIPayRequest) :
    Except Err UPITransaction × World :=
  if req.Amount.leZero then (.error .ErrInvalidAmount, w)
  else
    match ObjectIDFromHex userID with
    | none => (.error .ErrUnauthorized, w)
    | some oid =>
      match vpaRepo.FindByUserID env w oid with
      | (.error _, w1) => (.error (.New "no VPA found for user"), w1)
      | (.ok [], w1) => (.error (.New "no VPA found for user"), w1)
      | (.ok (v0 :: rest), w1) =>
        let fromVPA := rangeDefault v0.Address (v0 :: rest)
        let w2 := (generateTxnID env w1).2
        let txn : UPITransaction :=
          { ID := NilObjectID, UserID := oid, TxnID := (generateTxnID env w1).1, Type_ := "pay",
            FromVPA := fromVPA, ToVPA := req.ToVPA, Amount := req.Amount, Note := req.Note,
            Status := "success", FailureReason := "",
            TransactionDate := (timeNow env w2).1, CreatedAt := zeroTime }
        match txnRepo.Create env (timeNow env w2).2 txn with
        | (some err, _, w4) => (.error err, w4)
        | (none, txn1, w4) => (.ok txn1, w4)

def Collect (env : Env) (w : World) (userID : String) (req : CollectRequestInput) :
    Except Err CollectRequest × World :=
  if req.Amount.leZero then (.error .ErrInvalidAmount, w)
  else
    match ObjectIDFromHex userID with
    | none => (.error .ErrUnauthorized, w)
    | some oid =>
      match vpaRepo.FindByUserID env w oid with
      | (.error _, w1) => (.error (.New "no VPA found for user"), w1)
      | (.ok [], w1) => (.error (.New "no VPA found for user"), w1)
      | (.ok (v0 :: rest), w1) =>
        let toVPA := rangeDefault v0.Address (v0 :: rest)
        let cr : CollectRequest :=
          { ID := NilObjectID, UserID := oid, FromVPA := req.FromVPA, ToVPA := toVPA,
            Amount := req.Amount, Note := req.Note, Status := "pending",
            ExpiresAt := Time.Add (timeNow env w1).1 (24 * Hour), CreatedAt := zeroTime }
        match collectRepo.Create env (timeNow env w1).2 cr with
        | (some err, _, w3) => (.error err, w3)
        | (none, cr1, w3) => (.ok cr1, w3)

def GetTransactions (env : Env) (w : World) (userID : String) (page limit : Int) :
    Except Err (List UPITransaction × Int) × World :=
  match ObjectIDFromHex userID with
  | none => (.error .ErrUnauthorized, w)
  | some oid =>
    let page1 := if page < 1 then 1 else page
    let limit1 := if limit < 1 ∨ limit > 100 then 20 else limit
    txnRepo.FindByUserID env w oid page1 limit1

def CreateMandate (env : Env) (w : World) (userID : String) (req : CreateMandateRequest) :
    Except Err Mandate × World :=
  match ObjectIDFromHex userID with
  | none => (.error .ErrUnauthorized, w)
  | some oid =>
    match vpaRepo.FindByUserID env w oid with
    | (.error _, w1) => (.error (.New "no VPA found for user"), w1)
    | (.ok [], w1) => (.error (.New "no VPA found for user"), w1)
    | (.ok (v0 :: _), w1) =>
      let payerVPA := v0.Address
      let mandate : Mandate :=
        { ID := NilObjectID, UserID := oid, MandateID := (generateMandateID env w1).1,
          PayerVPA := payerVPA, PayeeVPA := req.PayeeVPA, Amount := req.Amount,
          Frequency := req.Frequency, StartDate := req.StartDate, EndDate := req.EndDate,
          Purpose := req.Purpose, Status := "active", CreatedAt := zeroTime,
          UpdatedAt := zeroTime }
      match mandateRepo.Create env (generateMandateID env w1).2 mandate with
      | (some err, _, w3) => (.error err, w3)
      | (none, mandate1, w3) => (.ok mandate1, w3)

def GetMandates (env : Env) (w : World) (userID : String) : Except Err (List Mandate) × World :=
  match ObjectIDFromHex userID with
  | none => (.error .ErrUnauthorized, w)
  | some oid => mandateRepo.FindByUserID env w oid

end upiService

/-! ## Concrete data used in the examples -/

/-- An environment with a clock that advances by one nanosecond per reading, no external
failure and no lower-casing outside ASCII. -/
def env0 : Env := { clock := fun n => 1700000000000000000 + n, fault := fun _ => none,
                    lowerRune := id }

/-- Empty database, nothing read or called yet. -/
def w0 : World := { db := { vpas := [], upi_transactions := [], mandates := [],
                            collect_requests := [] }, tick := 0, ops := 0 }

/-- A well-formed caller id. -/
def uidA : String := "65f1a2b3c4d5e6f708192a3b"

/-- The amount `100.0`. -/
def f100 : Float64 := ⟨0x4059000000000000⟩

/-- The amount `50.0`. -/
def f50 : Float64 := ⟨0x4049000000000000⟩

/-- The amount `-1.0`. -/
def fNeg1 : Float64 := ⟨0xBFF0000000000000⟩

/-- The amount `0.0`. -/
def fZero : Float64 := ⟨0⟩

/-- The account key of `uidA`. -/
def oidA : ObjectID := ⟨[0x65, 0xf1, 0xa2, 0xb3, 0xc4, 0xd5, 0xe6, 0xf7, 0x08, 0x19, 0x2a, 0x3b]⟩

/-- An active, default-flagged VPA of account `oidA`. -/
def vpaA : VPA :=
  { ID := NilObjectID, UserID := oidA, Address := "a@digitalbank", AccountID := "ACC1",
    IsDefault := true, IsActive := true, CreatedAt := 1600000000000000000,
    UpdatedAt := 1600000000000000001 }

/-- An active VPA of account `oidA` that is not flagged as default. -/
def vpaPlain : VPA :=
  { ID := NilObjectID, UserID := oidA, Address := "first@digitalbank", AccountID := "ACC0",
    IsDefault := false, IsActive := true, CreatedAt := 1500000000000000000,
    UpdatedAt := 1500000000000000001 }

/-- A store in which account `oidA` holds the single VPA `vpaA`. -/
def wA : World := { w0 with db := { w0.db with vpas := [vpaA] } }

/-- A store in which account `oidA` holds `vpaPlain` first and the default-flagged `vpaA` second. -/
def wTwo : World := { w0 with db := { w0.db with vpas := [vpaPlain, vpaA] } }

/-- A second well-formed caller id. -/
def uidB : String := "0123456789abcdefABCDEF00"

/-- The account key of `uidB`. -/
def oidB : ObjectID := ⟨[0x01, 0x23, 0x45, 0x67, 0x89, 0xab, 0xcd, 0xef, 0xab, 0xcd, 0xef, 0x00]⟩

/-- A transaction of account `u` with the given id and date. -/
def mkTxn (u : ObjectID) (id : String) (date : Time) : UPITransaction :=
  { ID := NilObjectID, UserID := u, TxnID := id, Type_ := "pay", FromVPA := "a@digitalbank",
    ToVPA := "x@bank", Amount := f100, Note := "", Status := "success", FailureReason := "",
    TransactionDate := date, CreatedAt := date + 1 }

/-- The mandate `CreateMandate` returns on `env0` for the request used in the examples. -/
def mkMandate (u : ObjectID) (id payer : String) : Mandate :=
  { ID := NilObjectID, UserID := u, MandateID := id, PayerVPA := payer, PayeeVPA := "p@bank",
    Amount := f100, Frequency := "monthly", StartDate := 0, EndDate := 1, Purpose := "rent",
    Status := "active", CreatedAt := 1700000000000000001, UpdatedAt := 1700000000000000002 }

/-- A store whose ledger holds three transactions of `oidA` and one of `oidB`. -/
def wTx : World :=
  { wA with db := { wA.db with upi_transactions :=
      [mkTxn oidA "UPI10" 10, mkTxn oidB "UPI25" 25, mkTxn oidA "UPI30" 30,
       mkTxn oidA "UPI20" 20] } }

/-- An environment like `env0` whose first driver call fails with a network error. -/
def envReadDown : Env :=
  { env0 with fault := fun n => if n = 0 then some (.Other "connection reset") else none }

/-- An environment like `env0` whose second driver call fails with a network error. -/
def envCursorDown : Env :=
  { env0 with fault := fun n => if n = 1 then some (.Other "connection reset") else none }

/-- An environment like `env0` whose third driver call fails with a network error. -/
def envWriteDown : Env :=
  { env0 with fault := fun n => if n = 2 then some (.Other "connection reset") else none }

/-- An environment like `env0` whose clock passes a millisecond boundary between its first
and its second reading. -/
def envEdge : Env := { env0 with clock := fun n => 1700000000000999999 + n }

/-- The network error of the failing environments, as the service sees it. -/
def netErr : Err := .Mongo (.Other "connection reset")

/-! ## Specification-side definitions -/

/-- Default-address selection rule in the specification's words: the first VPA flagged
`is_default`; if none is flagged, the first VPA. -/
def specDefaultAddress (vpas : List VPA) : Option String :=
  match vpas.find? (fun v => v.IsDefault) with
  | some v => some v.Address
  | none => vpas.head?.map (fun v => v.Address)

/-! ## Sanity checks of the embedding -/

example : ObjectIDFromHex uidA = some oidA := by decide
example : ObjectIDFromHex "zz" = none := by decide
example : ObjectIDFromHex "65f1a2b3c4d5e6f708192a3g" = none := by decide
example : f100.gtZero = true ∧ f100.leZero = false := by decide
example : fNeg1.leZero = true ∧ fZero.leZero = true := by decide
example : ToLower env0 "John.Doe" ++ bankSuffix = "john.doe@digitalbank" := by decide
example : wrapInt64 (2 ^ 63) = -(2 ^ 63) := by decide
example : bsonTime 1700000000000999999 = 1700000000000000000 := by decide
example : bsonTime (-1) = -1000000 := by decide

/-! ## Auxiliary lemmas -/

open upiService

theorem Float64.leZero_eq_false_of_gtZero (x : Float64) (h : x.gtZero = true) :
    x.leZero = false := by
  unfold Float64.gtZero at h
  unfold Float64.leZero
  cases hn : x.isNaN <;> cases hz : x.isZero <;> simp_all

/-- Reading the VPAs of an account changes neither the collections nor the clock. -/
theorem vpaRepo.FindByUserID_db (env : Env) (w : World) (oid : ObjectID) :
    (vpaRepo.FindByUserID env w oid).2.db = w.db ∧
    (vpaRepo.FindByUserID env w oid).2.tick = w.tick := by
  unfold vpaRepo.FindByUserID vpas_Find cursor_All
  cases h1 : env.fault w.ops <;> simp [World.op]
  cases h2 : env.fault (w.ops + 1) <;> simp

/-- With no active VPA stored for the account the read yields an error or the empty list,
whatever the driver does. -/
theorem vpaRepo.FindByUserID_of_empty (env : Env) (w : World) (oid : ObjectID)
    (h : w.db.vpas.filter (fun v => v.UserID == oid && v.IsActive) = []) :
    (∃ e, (vpaRepo.FindByUserID env w oid).1 = .error e) ∨
      (vpaRepo.FindByUserID env w oid).1 = .ok [] := by
  unfold vpaRepo.FindByUserID vpas_Find cursor_All
  cases h1 : env.fault w.ops <;> simp [World.op]
  cases h2 : env.fault (w.ops + 1) <;> simp [h]

/-- The selection loop returns the first flagged address, or the start value. -/
theorem rangeDefault_eq (addr : String) (vpas : List VPA) :
    rangeDefault addr vpas =
      match vpas.find? (fun v => v.IsDefault) with
      | some v => v.Address
      | none => addr := by
  induction vpas with
  | nil => rfl
  | cons v rest ih =>
    cases hv : v.IsDefault <;> simp [rangeDefault, List.find?, hv, ih]

/-- The loop of `Pay` and `Collect`, started at the first address, computes the
specification's selection rule. -/
theorem rangeDefault_spec (v0 : VPA) (rest : List VPA) :
    some (rangeDefault v0.Address (v0 :: rest)) = specDefaultAddress (v0 :: rest) := by
  rw [rangeDefault_eq]
  unfold specDefaultAddress
  cases h : List.find? (fun v => v.IsDefault) (v0 :: rest) <;> simp

/-- Full result of `Pay` when the VPA read returns a non-empty list and the insert is
neither failed from outside nor rejected by the unique index on `txn_id`. -/
theorem Pay_ok (env : Env) (w w1 : World) (userID : String) (oid : ObjectID)
    (pr : UPIPayRequest) (v0 : VPA) (rest : List VPA)
    (hid : ObjectIDFromHex userID = some oid)
    (hamt : pr.Amount.leZero = false)
    (hfind : vpaRepo.FindByUserID env w oid = (.ok (v0 :: rest), w1))
    (hfault : env.fault w1.ops = none)
    (hfresh : ∀ x ∈ w.db.upi_transactions, x.TxnID ≠ (generateTxnID env w1).1) :
    ∃ txn : UPITransaction,
      txn = { ID := NilObjectID, UserID := oid,
              TxnID := "UPI" ++ toString (UnixNano (env.clock w1.tick)), Type_ := "pay",
              FromVPA := rangeDefault v0.Address (v0 :: rest), ToVPA := pr.ToVPA,
              Amount := pr.Amount, Note := pr.Note, Status := "success", FailureReason := "",
              TransactionDate := env.clock (w1.tick + 1),
              CreatedAt := env.clock (w1.tick + 2) } ∧
      Pay env w userID pr =
        (.ok txn, { db := { w.db with upi_transactions := w.db.upi_transactions ++ [txn] },
                    tick := w1.tick + 3, ops := w1.ops + 1 }) := by
  have hdb : w1.db = w.db := by
    have := (vpaRepo.FindByUserID_db env w oid).1
    rw [hfind] at this
    exact this
  have hfresh1 : ¬ ∃ x ∈ w.db.upi_transactions,
      x.TxnID = "UPI" ++ toString (UnixNano (env.clock w1.tick)) := by
    rintro ⟨x, hx, he⟩
    exact hfresh x hx he
  refine ⟨_, rfl, ?_⟩
  simp [Pay, hid, hamt, hfind, txnRepo.Create, txns_InsertOne, generateTxnID, timeNow,
    World.tock, World.op, hfault, hdb, hfresh1, Nat.add_assoc]

/-- Full result of `Collect` when the VPA read returns a non-empty list and the insert is
not failed from outside: the record returned, and the document stored with its times in
whole milliseconds. -/
theorem Collect_ok (env : Env) (w w1 : World) (userID : String) (oid : ObjectID)
    (cr : CollectRequestInput) (v0 : VPA) (rest : List VPA)
    (hid : ObjectIDFromHex userID = some oid)
    (hamt : cr.Amount.leZero = false)
    (hfind : vpaRepo.FindByUserID env w oid = (.ok (v0 :: rest), w1))
    (hfault : env.fault w1.ops = none) :
    ∃ c : CollectRequest,
      c = { ID := NilObjectID, UserID := oid, FromVPA := cr.FromVPA,
            ToVPA := rangeDefault v0.Address (v0 :: rest), Amount := cr.Amount,
            Note := cr.Note, Status := "pending",
            ExpiresAt := env.clock w1.tick + 24 * Hour,
            CreatedAt := env.clock (w1.tick + 1) } ∧
      Collect env w userID cr =
        (.ok c, { db := { w.db with collect_requests := w.db.collect_requests ++
                    [{ c with ExpiresAt := bsonTime c.ExpiresAt,
                              CreatedAt := bsonTime c.CreatedAt }] },
                  tick := w1.tick + 2, ops := w1.ops + 1 }) := by
  have hdb : w1.db = w.db := by
    have := (vpaRepo.FindByUserID_db env w oid).1
    rw [hfind] at this
    exact this
  refine ⟨_, rfl, ?_⟩
  simp [Collect, hid, hamt, hfind, collectRepo.Create, collects_InsertOne, timeNow,
    World.tock, World.op, hfault, hdb, Time.Add, Nat.add_assoc]

/-- With no external failure of its two driver calls the VPA read returns the stored active
VPAs of the account, in natural order. -/
theorem vpaRepo.FindByUserID_ok (env : Env) (w : World) (oid : ObjectID)
    (h0 : env.fault w.ops = none) (h1 : env.fault (w.ops + 1) = none) :
    vpaRepo.FindByUserID env w oid =
      (.ok (w.db.vpas.filter (fun v => v.UserID == oid && v.IsActive)), w.op.op) := by
  simp [vpaRepo.FindByUserID, vpas_Find, cursor_All, h0, h1, World.op]

/-- The insert into `vpas` either appends the record (no external failure, address not
stored) or reports a driver error and changes no collection. -/
theorem vpas_InsertOne_cases (env : Env) (w : World) (v : VPA) :
    (vpas_InsertOne env w v = (none, { w.op with db := { w.db with vpas := w.db.vpas ++ [v] } }) ∧
      env.fault w.ops = none ∧ ∀ x ∈ w.db.vpas, x.Address ≠ v.Address) ∨
    (∃ e, vpas_InsertOne env w v = (some (.Mongo e), w.op) ∧
      (env.fault w.ops = some e ∨
        (env.fault w.ops = none ∧ e = .DuplicateKey ∧ ∃ x ∈ w.db.vpas, x.Address = v.Address))) := by
  unfold vpas_InsertOne
  cases hf : env.fault w.ops with
  | some e => exact Or.inr ⟨e, rfl, Or.inl rfl⟩
  | none =>
    by_cases hd : ∃ x ∈ w.db.vpas, x.Address = v.Address
    · right
      refine ⟨.DuplicateKey, ?_, Or.inr ⟨rfl, rfl, hd⟩⟩
      simp [hd]
    · left
      refine ⟨?_, rfl, ?_⟩
      · simp [hd]
      · intro x hx he
        exact hd ⟨x, hx, he⟩

/-- A `CreateVPA` that follows a successful one with the same lower-cased prefix is rejected
by the unique index, provided its insert is not failed from outside. -/
theorem CreateVPA_second_fails (env : Env) (w w1 : World) (userID1 userID2 : String)
    (oid2 : ObjectID) (req1 req2 : CreateVPARequest) (v : VPA)
    (hid2 : ObjectIDFromHex userID2 = some oid2)
    (hfirst : CreateVPA env w userID1 req1 = (.ok v, w1))
    (hsame : ToLower env req2.Prefix = ToLower env req1.Prefix)
    (hfault : env.fault w1.ops = none) :
    ((CreateVPA env w1 userID2 req2).1 = .error .ErrVPAExists ∧
      (CreateVPA env w1 userID2 req2).2.db = w1.db) := by
  have hstored : ∃ x ∈ w1.db.vpas, x.Address = ToLower env req1.Prefix ++ bankSuffix := by
    unfold CreateVPA at hfirst
    cases h1 : ObjectIDFromHex userID1 with
    | none => simp [h1] at hfirst
    | some oid1 =>
      simp only [h1, vpaRepo.Create] at hfirst
      rcases vpas_InsertOne_cases env (timeNow env (timeNow env w).2).2
        { ID := NilObjectID, UserID := oid1, Address := ToLower env req1.Prefix ++ bankSuffix,
          AccountID := req1.AccountID, IsDefault := true, IsActive := true,
          CreatedAt := (timeNow env w).1,
          UpdatedAt := (timeNow env (timeNow env w).2).1 } with ⟨h, -, -⟩ | ⟨e, h, -⟩
      · rw [h] at hfirst
        simp only [Prod.mk.injEq] at hfirst
        obtain ⟨-, rfl⟩ := hfirst
        exact ⟨_, List.mem_append_right _ (List.mem_singleton_self _), rfl⟩
      · rw [h] at hfirst
        simp at hfirst
        split at hfirst <;> simp at hfirst
  simp [CreateVPA, hid2, vpaRepo.Create, vpas_InsertOne, timeNow, World.tock, World.op, hfault,
    hsame, hstored, IsDuplicateKeyError]

/-- `CreateVPA` answers `ErrVPAExists` exactly when the insert reports a duplicate key, and
hands every other insert error back as it is. -/
theorem CreateVPA_error_translation (env : Env) (w : World) (userID : String) (oid : ObjectID)
    (req : CreateVPARequest) (hid : ObjectIDFromHex userID = some oid) :
    ((CreateVPA env w userID req).1 = .error .ErrVPAExists ↔
      ∃ e, (vpaRepo.Create env w
        { ID := NilObjectID, UserID := oid, Address := ToLower env req.Prefix ++ bankSuffix,
          AccountID := req.AccountID, IsDefault := true, IsActive := true,
          CreatedAt := zeroTime, UpdatedAt := zeroTime }).1 = some e ∧
        IsDuplicateKeyError e = true) ∧
    (∀ e, (vpaRepo.Create env w
        { ID := NilObjectID, UserID := oid, Address := ToLower env req.Prefix ++ bankSuffix,
          AccountID := req.AccountID, IsDefault := true, IsActive := true,
          CreatedAt := zeroTime, UpdatedAt := zeroTime }).1 = some e →
      IsDuplicateKeyError e = false → (CreateVPA env w userID req).1 = .error e) := by
  simp only [CreateVPA, hid, vpaRepo.Create]
  rcases vpas_InsertOne_cases env (timeNow env (timeNow env w).2).2
    { ID := NilObjectID, UserID := oid, Address := ToLower env req.Prefix ++ bankSuffix,
      AccountID := req.AccountID, IsDefault := true, IsActive := true,
      CreatedAt := (timeNow env w).1,
      UpdatedAt := (timeNow env (timeNow env w).2).1 } with ⟨h, -, -⟩ | ⟨e, h, -⟩
  · rw [h]
    simp
  · rw [h]
    cases e <;> simp [IsDuplicateKeyError]

/-- An integer inside the `int64` range is its own wrap-around. -/
theorem wrapInt64_of_fits (x : Int) (h0 : -(2 ^ 63) ≤ x) (h1 : x < 2 ^ 63) : wrapInt64 x = x := by
  unfold wrapInt64
  omega

/-- Adding 24 hours, a whole number of milliseconds, commutes with the BSON rounding. -/
theorem bsonTime_add_day (t : Time) : bsonTime (t + 24 * Hour) = bsonTime t + 24 * Hour := by
  have key : ∀ x : Int, (x + 24 * 3600000000000) / 1000000 * 1000000 =
      x / 1000000 * 1000000 + 24 * 3600000000000 := by
    intro x
    omega
  exact key t

/-- Two stored times are 24 hours apart exactly when the readings they come from fall into
the same millisecond. -/
theorem bsonTime_day_eq_iff (a b : Time) :
    bsonTime a + 24 * Hour = bsonTime b + 24 * Hour ↔ a / 1000000 = b / 1000000 := by
  have key : ∀ x y : Int, (x / 1000000 * 1000000 + 24 * 3600000000000 =
      y / 1000000 * 1000000 + 24 * 3600000000000) ↔ x / 1000000 = y / 1000000 := by
    intro x y
    omega
  exact key a b

/-! ## Claims -/

/-- C1: for every amount `<= 0`, every caller id (well-formed or not), every store and every
behaviour of the environment, `Pay` and `Collect` fail with `ErrInvalidAmount` and return
the state they were given: no driver call is counted and no collection is changed. -/
theorem C1_invalid_amount_before_any_access (env : Env) (w : World) (userID : String)
    (pr : UPIPayRequest) (cr : CollectRequestInput)
    (hp : pr.Amount.leZero = true) (hc : cr.Amount.leZero = true) :
    Pay env w userID pr = (.error .ErrInvalidAmount, w) ∧
    Collect env w userID cr = (.error .ErrInvalidAmount, w) := by
  simp [Pay, Collect, hp, hc]

/-- Instance of C1: amounts `-1.0` and `0.0`, a malformed caller id, a store holding a VPA. -/
theorem C1_invalid_amount_before_any_access_witness :
    fNeg1.leZero = true ∧ fZero.leZero = true ∧
    Pay env0 wA "not-an-id" ⟨"x@bank", fNeg1, "n"⟩ = (.error .ErrInvalidAmount, wA) ∧
    Collect env0 wA "not-an-id" ⟨"b@bank", fZero, "n"⟩ = (.error .ErrInvalidAmount, wA) :=
  ⟨by decide, by decide,
    C1_invalid_amount_before_any_access env0 wA "not-an-id" ⟨"x@bank", fNeg1, "n"⟩
      ⟨"b@bank", fZero, "n"⟩ (by decide) (by decide)⟩

/-- C2: for a well-formed account id with no active VPA stored, `Pay` and `Collect` (amount
`> 0`) and `CreateMandate` fail with the error "no VPA found for user" and leave all four
collections as they were, whatever the driver does. -/
theorem C2_no_vpa_fails (env : Env) (w : World) (userID : String) (oid : ObjectID)
    (pr : UPIPayRequest) (cr : CollectRequestInput) (mr : CreateMandateRequest)
    (hid : ObjectIDFromHex userID = some oid)
    (hv : w.db.vpas.filter (fun v => v.UserID == oid && v.IsActive) = [])
    (hp : pr.Amount.gtZero = true) (hc : cr.Amount.gtZero = true) :
    ((Pay env w userID pr).1 = .error (.New "no VPA found for user") ∧
      (Pay env w userID pr).2.db = w.db) ∧
    ((Collect env w userID cr).1 = .error (.New "no VPA found for user") ∧
      (Collect env w userID cr).2.db = w.db) ∧
    ((CreateMandate env w userID mr).1 = .error (.New "no VPA found for user") ∧
      (CreateMandate env w userID mr).2.db = w.db) := by
  have hdb := (vpaRepo.FindByUserID_db env w oid).1
  have hem := vpaRepo.FindByUserID_of_empty env w oid hv
  have hp1 := Float64.leZero_eq_false_of_gtZero _ hp
  have hc1 := Float64.leZero_eq_false_of_gtZero _ hc
  simp only [Pay, Collect, CreateMandate, hid, hp1, hc1]
  generalize vpaRepo.FindByUserID env w oid = p at hdb hem
  obtain ⟨r, w1⟩ := p
  simp only at hdb hem
  rcases hem with ⟨e, rfl⟩ | rfl <;> simp [hdb]

/-- Instance of C2: account `uidA` on the empty store. -/
theorem C2_no_vpa_fails_witness :
    ((Pay env0 w0 uidA ⟨"x@bank", f100, "n"⟩).1 = .error (.New "no VPA found for user") ∧
      (Pay env0 w0 uidA ⟨"x@bank", f100, "n"⟩).2.db = w0.db) ∧
    ((Collect env0 w0 uidA ⟨"b@bank", f100, "n"⟩).1 = .error (.New "no VPA found for user") ∧
      (Collect env0 w0 uidA ⟨"b@bank", f100, "n"⟩).2.db = w0.db) ∧
    ((CreateMandate env0 w0 uidA ⟨"p@bank", f100, "monthly", 0, 1, "rent"⟩).1 =
        .error (.New "no VPA found for user") ∧
      (CreateMandate env0 w0 uidA ⟨"p@bank", f100, "monthly", 0, 1, "rent"⟩).2.db = w0.db) :=
  C2_no_vpa_fails env0 w0 uidA oidA _ _ _ (by decide) (by decide) (by decide) (by decide)

/-- C3: when the VPA read returns a non-empty list for the account, the transaction `Pay`
returns has as `FromVPA`, and the collect request `Collect` returns has as `ToVPA`, the
address the specification's selection rule picks from that list (first flagged default,
else first VPA); the list is arbitrary, with zero, one or several flagged defaults. The
results exist whenever the insert is not failed (for `Pay`: and the `txn_id` is new). -/
theorem C3_acting_address_is_default_selection (env : Env) (w w1 : World) (userID : String)
    (oid : ObjectID) (pr : UPIPayRequest) (cr : CollectRequestInput) (vpas : List VPA)
    (hid : ObjectIDFromHex userID = some oid)
    (hfind : vpaRepo.FindByUserID env w oid = (.ok vpas, w1)) (hne : vpas ≠ [])
    (hp : pr.Amount.leZero = false) (hc : cr.Amount.leZero = false)
    (hfault : env.fault w1.ops = none) :
    ((∀ x ∈ w.db.upi_transactions, x.TxnID ≠ (generateTxnID env w1).1) →
      ∃ txn, (Pay env w userID pr).1 = .ok txn ∧
        some txn.FromVPA = specDefaultAddress vpas) ∧
    (∃ c, (Collect env w userID cr).1 = .ok c ∧ some c.ToVPA = specDefaultAddress vpas) := by
  obtain _ | ⟨v0, rest⟩ := vpas
  · exact absurd rfl hne
  constructor
  · intro hfresh
    obtain ⟨txn, htxn, hpay⟩ := Pay_ok env w w1 userID oid pr v0 rest hid hp hfind hfault hfresh
    refine ⟨txn, by rw [hpay], ?_⟩
    rw [htxn]
    exact rangeDefault_spec v0 rest
  · obtain ⟨c, hc1, hcol⟩ := Collect_ok env w w1 userID oid cr v0 rest hid hc hfind hfault
    refine ⟨c, by rw [hcol], ?_⟩
    rw [hc1]
    exact rangeDefault_spec v0 rest

/-- Instance of C3: the read returns a plain VPA followed by a flagged one. -/
theorem C3_acting_address_is_default_selection_witness :
    specDefaultAddress [vpaPlain, vpaA] = some "a@digitalbank" ∧
    (∃ txn, (Pay env0 wTwo uidA ⟨"x@bank", f100, "n"⟩).1 = .ok txn ∧
      some txn.FromVPA = specDefaultAddress [vpaPlain, vpaA]) ∧
    (∃ c, (Collect env0 wTwo uidA ⟨"b@bank", f100, "n"⟩).1 = .ok c ∧
      some c.ToVPA = specDefaultAddress [vpaPlain, vpaA]) :=
  have h := C3_acting_address_is_default_selection env0 wTwo wTwo.op.op uidA oidA
    ⟨"x@bank", f100, "n"⟩ ⟨"b@bank", f100, "n"⟩ [vpaPlain, vpaA] (by decide) rfl (by simp)
    (by decide) (by decide) rfl
  ⟨by decide, h.1 (by simp [wTwo, w0]), h.2⟩

/-- C4 (evaluation at the failing input): with `vpaPlain` (not flagged) stored before `vpaA`
(flagged default), `CreateMandate` takes the payer address from the first VPA, while the
selection rule, and `Pay` on the same store, take the flagged one. -/
theorem C4_mandate_payer_is_first_vpa :
    (∃ m, (CreateMandate env0 wTwo uidA ⟨"p@bank", f100, "monthly", 0, 1, "rent"⟩).1 = .ok m ∧
      m.PayerVPA = "first@digitalbank") ∧
    specDefaultAddress [vpaPlain, vpaA] = some "a@digitalbank" ∧
    (∃ t, (Pay env0 wTwo uidA ⟨"p@bank", f100, "rent"⟩).1 = .ok t ∧
      t.FromVPA = "a@digitalbank") :=
  ⟨⟨_, rfl, rfl⟩, rfl, ⟨_, rfl, rfl⟩⟩

/-- C5: for a well-formed account id with at least one active VPA stored and an amount
`> 0`, when the read of the VPAs and the insert are not failed and the `txn_id` is new,
`Pay` returns a transaction of type "pay" and status "success" whose `ToVPA`, `Amount` and
`Note` are the request's, whose `UserID` is the resolved caller id and whose `TxnID` is
"UPI" followed by the decimal clock reading; the ledger afterwards is the old ledger with
exactly that record appended, and no other collection changes. -/
theorem C5_pay_success_record (env : Env) (w : World) (userID : String) (oid : ObjectID)
    (pr : UPIPayRequest)
    (hid : ObjectIDFromHex userID = some oid)
    (hamt : pr.Amount.gtZero = true)
    (hact : w.db.vpas.filter (fun v => v.UserID == oid && v.IsActive) ≠ [])
    (hread0 : env.fault w.ops = none) (hread1 : env.fault (w.ops + 1) = none)
    (hwrite : env.fault (w.ops + 2) = none)
    (hfresh : ∀ x ∈ w.db.upi_transactions, x.TxnID ≠ (generateTxnID env w).1) :
    ∃ txn : UPITransaction,
      Pay env w userID pr =
        (.ok txn, { db := { w.db with upi_transactions := w.db.upi_transactions ++ [txn] },
                    tick := w.tick + 3, ops := w.ops + 3 }) ∧
      txn.Type_ = "pay" ∧ txn.Status = "success" ∧ txn.ToVPA = pr.ToVPA ∧
      txn.Amount = pr.Amount ∧ txn.Note = pr.Note ∧ txn.UserID = oid ∧
      txn.TxnID = "UPI" ++ toString (UnixNano (env.clock w.tick)) ∧
      "UPI".data <+: txn.TxnID.data := by
  have hfind := vpaRepo.FindByUserID_ok env w oid hread0 hread1
  obtain ⟨v0, rest, hvs⟩ := List.exists_cons_of_ne_nil hact
  rw [hvs] at hfind
  obtain ⟨txn, htxn, hpay⟩ := Pay_ok env w w.op.op userID oid pr v0 rest hid
    (Float64.leZero_eq_false_of_gtZero _ hamt) hfind hwrite hfresh
  refine ⟨txn, ?_, ?_⟩
  · rw [hpay]
    simp [World.op, Nat.add_assoc]
  · subst htxn
    refine ⟨rfl, rfl, rfl, rfl, rfl, rfl, rfl, ?_⟩
    exact ⟨(toString (UnixNano (env.clock w.tick))).data, rfl⟩

/-- Instance of C5: account `uidA` with its single VPA pays 100 to `x@bank`. -/
theorem C5_pay_success_record_witness :
    ∃ txn : UPITransaction,
      Pay env0 wA uidA ⟨"x@bank", f100, "lunch"⟩ =
        (.ok txn, { db := { wA.db with upi_transactions := wA.db.upi_transactions ++ [txn] },
                    tick := wA.tick + 3, ops := wA.ops + 3 }) ∧
      txn.Type_ = "pay" ∧ txn.Status = "success" ∧ txn.ToVPA = "x@bank" ∧
      txn.Amount = f100 ∧ txn.Note = "lunch" ∧ txn.UserID = oidA ∧
      txn.TxnID = "UPI" ++ toString (UnixNano (env0.clock wA.tick)) ∧
      "UPI".data <+: txn.TxnID.data :=
  C5_pay_success_record env0 wA uidA oidA ⟨"x@bank", f100, "lunch"⟩ (by decide) (by decide)
    (by decide) rfl rfl rfl (by simp [wA, w0])

/-- C6: for a well-formed account id, when the insert is not failed and the address is not
stored yet, `CreateVPA` returns, and appends to `vpas`, a VPA whose address is the
lower-cased prefix followed by "@digitalbank", flagged default and active whatever the
store already holds, with the request's linked account and the resolved account key;
prefix "John.Doe" gives "john.doe@digitalbank" under every Unicode table. -/
theorem C6_create_vpa_record (env : Env) (w : World) (userID : String) (oid : ObjectID)
    (req : CreateVPARequest)
    (hid : ObjectIDFromHex userID = some oid)
    (hwrite : env.fault w.ops = none)
    (hnew : ∀ x ∈ w.db.vpas, x.Address ≠ ToLower env req.Prefix ++ bankSuffix) :
    (∃ vpa : VPA,
      CreateVPA env w userID req =
        (.ok vpa, { db := { w.db with vpas := w.db.vpas ++ [vpa] },
                    tick := w.tick + 2, ops := w.ops + 1 }) ∧
      vpa.Address = ToLower env req.Prefix ++ "@digitalbank" ∧
      vpa.IsDefault = true ∧ vpa.IsActive = true ∧
      vpa.AccountID = req.AccountID ∧ vpa.UserID = oid) ∧
    ToLower env "John.Doe" ++ "@digitalbank" = "john.doe@digitalbank" := by
  have hnew1 : ¬ ∃ x ∈ w.db.vpas, x.Address = ToLower env req.Prefix ++ bankSuffix := by
    rintro ⟨x, hx, he⟩
    exact hnew x hx he
  refine ⟨⟨{ ID := NilObjectID, UserID := oid, Address := ToLower env req.Prefix ++ bankSuffix,
             AccountID := req.AccountID, IsDefault := true, IsActive := true,
             CreatedAt := env.clock w.tick, UpdatedAt := env.clock (w.tick + 1) }, ?_,
          rfl, rfl, rfl, rfl, rfl⟩, rfl⟩
  simp [CreateVPA, hid, vpaRepo.Create, vpas_InsertOne, timeNow, World.tock, World.op, hwrite,
    hnew1]


/-- Instance of C6: account `uidA`, which already holds a default VPA, registers `John.Doe`. -/
theorem C6_create_vpa_record_witness :
    (∃ vpa : VPA,
      CreateVPA env0 wA uidA ⟨"John.Doe", "ACC1"⟩ =
        (.ok vpa, { db := { wA.db with vpas := wA.db.vpas ++ [vpa] },
                    tick := wA.tick + 2, ops := wA.ops + 1 }) ∧
      vpa.Address = ToLower env0 "John.Doe" ++ "@digitalbank" ∧
      vpa.IsDefault = true ∧ vpa.IsActive = true ∧
      vpa.AccountID = "ACC1" ∧ vpa.UserID = oidA) ∧
    ToLower env0 "John.Doe" ++ "@digitalbank" = "john.doe@digitalbank" :=
  C6_create_vpa_record env0 wA uidA oidA ⟨"John.Doe", "ACC1"⟩ (by decide) rfl (by decide)

/-- C7: over the `vpas` collection with its unique index on `address`: after a successful
`CreateVPA`, a second `CreateVPA` (any well-formed caller) whose prefix lower-cases to the
same string, and whose insert is not failed from outside, fails with `ErrVPAExists` and
leaves the collections unchanged; and for every call, `CreateVPA` fails with `ErrVPAExists`
exactly when the insert reports a duplicate key, any other insert error being returned
as it is. -/
theorem C7_duplicate_address_already_exists (env : Env) (w w1 : World)
    (userID1 userID2 : String) (oid2 : ObjectID) (req1 req2 : CreateVPARequest) (v : VPA)
    (hid2 : ObjectIDFromHex userID2 = some oid2)
    (hfirst : CreateVPA env w userID1 req1 = (.ok v, w1))
    (hsame : ToLower env req2.Prefix = ToLower env req1.Prefix)
    (hfault : env.fault w1.ops = none) :
    ((CreateVPA env w1 userID2 req2).1 = .error .ErrVPAExists ∧
      (CreateVPA env w1 userID2 req2).2.db = w1.db) ∧
    (∀ (w2 : World) (uid : String) (o : ObjectID) (r : CreateVPARequest),
      ObjectIDFromHex uid = some o →
      ((CreateVPA env w2 uid r).1 = .error .ErrVPAExists ↔
        ∃ e, (vpaRepo.Create env w2
          { ID := NilObjectID, UserID := o, Address := ToLower env r.Prefix ++ bankSuffix,
            AccountID := r.AccountID, IsDefault := true, IsActive := true,
            CreatedAt := zeroTime, UpdatedAt := zeroTime }).1 = some e ∧
          IsDuplicateKeyError e = true) ∧
      (∀ e, (vpaRepo.Create env w2
          { ID := NilObjectID, UserID := o, Address := ToLower env r.Prefix ++ bankSuffix,
            AccountID := r.AccountID, IsDefault := true, IsActive := true,
            CreatedAt := zeroTime, UpdatedAt := zeroTime }).1 = some e →
        IsDuplicateKeyError e = false → (CreateVPA env w2 uid r).1 = .error e)) :=
  ⟨CreateVPA_second_fails env w w1 userID1 userID2 oid2 req1 req2 v hid2 hfirst hsame hfault,
    fun w2 uid o r ho => CreateVPA_error_translation env w2 uid o r ho⟩

/-- Instance of C7: `uidA` registers `John.Doe`, then `uidB` tries `JOHN.doe`. -/
theorem C7_duplicate_address_already_exists_witness :
    (CreateVPA env0 (CreateVPA env0 w0 uidA ⟨"John.Doe", "ACC1"⟩).2 uidB ⟨"JOHN.doe", "ACC2"⟩).1 =
        .error .ErrVPAExists ∧
    (CreateVPA env0 (CreateVPA env0 w0 uidA ⟨"John.Doe", "ACC1"⟩).2 uidB ⟨"JOHN.doe", "ACC2"⟩).2.db =
        (CreateVPA env0 w0 uidA ⟨"John.Doe", "ACC1"⟩).2.db :=
  (C7_duplicate_address_already_exists env0 w0 (CreateVPA env0 w0 uidA ⟨"John.Doe", "ACC1"⟩).2
    uidA uidB oidB ⟨"John.Doe", "ACC1"⟩ ⟨"JOHN.doe", "ACC2"⟩
    { ID := NilObjectID, UserID := oidA, Address := "john.doe@digitalbank", AccountID := "ACC1",
      IsDefault := true, IsActive := true, CreatedAt := 1700000000000000000,
      UpdatedAt := 1700000000000000001 }
    (by decide) rfl rfl rfl).1

/-- C8: for a well-formed account id and all integers `page` and `limit`, `GetTransactions`
is the ledger query at `page'` and `limit'`, where `page' = 1` if `page < 1` and `page`
otherwise, and `limit' = 20` if `limit < 1` or `limit > 100` and `limit` otherwise; so page 0
gives what page 1 gives, limit 500 what limit 20 gives, and limits 1 and 100 pass through. -/
theorem C8_page_limit_normalisation (env : Env) (w : World) (userID : String) (oid : ObjectID)
    (page limit : Int) (hid : ObjectIDFromHex userID = some oid) :
    GetTransactions env w userID page limit =
      txnRepo.FindByUserID env w oid (if page < 1 then 1 else page)
        (if limit < 1 ∨ limit > 100 then 20 else limit) ∧
    GetTransactions env w userID 0 limit = GetTransactions env w userID 1 limit ∧
    GetTransactions env w userID page 500 = GetTransactions env w userID page 20 ∧
    GetTransactions env w userID page 1 =
      txnRepo.FindByUserID env w oid (if page < 1 then 1 else page) 1 ∧
    GetTransactions env w userID page 100 =
      txnRepo.FindByUserID env w oid (if page < 1 then 1 else page) 100 := by
  simp [GetTransactions, hid]

/-- Instance of C8: page `-3` and limit `101`. -/
theorem C8_page_limit_normalisation_witness :
    GetTransactions env0 wTx uidA (-3) 101 = txnRepo.FindByUserID env0 wTx oidA 1 20 ∧
    GetTransactions env0 wTx uidA 0 101 = GetTransactions env0 wTx uidA 1 101 ∧
    GetTransactions env0 wTx uidA (-3) 500 = GetTransactions env0 wTx uidA (-3) 20 ∧
    GetTransactions env0 wTx uidA (-3) 1 = txnRepo.FindByUserID env0 wTx oidA 1 1 ∧
    GetTransactions env0 wTx uidA (-3) 100 = txnRepo.FindByUserID env0 wTx oidA 1 100 :=
  C8_page_limit_normalisation env0 wTx uidA oidA (-3) 101 (by decide)

/-- C9 (evaluation at the failing input): page `2^62 + 1` with limit 4 is a normalised
request, its offset `(page - 1) * limit = 2^64` wraps to 0 in `int64`, and the query returns
the first three transactions of the account, while the window that skips `2^64` records is
empty. -/
theorem C9_window_wraps_at_large_page :
    wrapInt64 (wrapInt64 (4611686018427387905 - 1) * 4) = 0 ∧
    (GetTransactions env0 wTx uidA 4611686018427387905 4).1 =
      .ok ([mkTxn oidA "UPI30" 30, mkTxn oidA "UPI20" 20, mkTxn oidA "UPI10" 10], 3) ∧
    (((wTx.db.upi_transactions.filter (fun t => t.UserID == oidA)).insertionSort
      dateDesc).drop ((4611686018427387905 - 1) * 4 : Int).toNat).take 4 = [] :=
  ⟨by decide, rfl, by decide⟩

/-- C10 (counterexample): the two clock readings of a `Collect` call are one nanosecond
apart and fall into different milliseconds; neither the collect request returned nor the
document stored expires exactly 24 hours after its `CreatedAt`. -/
theorem C10_expiry_is_not_created_plus_24h :
    ∃ c d w1, Collect envEdge wA uidA ⟨"b@bank", f50, "n"⟩ = (.ok c, w1) ∧
      c.ExpiresAt ≠ c.CreatedAt + 24 * Hour ∧
      w1.db.collect_requests = [d] ∧ d.ExpiresAt ≠ d.CreatedAt + 24 * Hour :=
  ⟨_, _, _, rfl, by decide, rfl, by decide⟩

/-- C10, as the code has it: for a well-formed account id with at least one active VPA
stored and an amount `> 0`, when the read of the VPAs and the insert are not failed,
`Collect` returns a request `c` and appends one document `d` to `collect_requests`; both
have status "pending" and the request's `FromVPA`, `Amount` and `Note`. In `c`,
`ExpiresAt` is the clock reading `Collect` takes plus exactly 24 hours and `CreatedAt` is
the next clock reading, taken by the repository, so `ExpiresAt = CreatedAt + 24h` holds
exactly when the two readings are equal. In `d` both times are those of `c` in whole
milliseconds, so `ExpiresAt = CreatedAt + 24h` holds exactly when the two readings fall
into the same millisecond. -/
theorem C10_collect_expiry_from_service_clock (env : Env) (w : World) (userID : String)
    (oid : ObjectID) (cr : CollectRequestInput)
    (hid : ObjectIDFromHex userID = some oid)
    (hamt : cr.Amount.gtZero = true)
    (hact : w.db.vpas.filter (fun v => v.UserID == oid && v.IsActive) ≠ [])
    (hread0 : env.fault w.ops = none) (hread1 : env.fault (w.ops + 1) = none)
    (hwrite : env.fault (w.ops + 2) = none) :
    ∃ c d : CollectRequest,
      Collect env w userID cr =
        (.ok c, { db := { w.db with collect_requests := w.db.collect_requests ++ [d] },
                  tick := w.tick + 2, ops := w.ops + 3 }) ∧
      (c.Status = "pending" ∧ c.FromVPA = cr.FromVPA ∧ c.Amount = cr.Amount ∧
        c.Note = cr.Note) ∧
      (c.ExpiresAt = env.clock w.tick + 24 * Hour ∧
        c.CreatedAt = env.clock (w.tick + 1) ∧
        (c.ExpiresAt = c.CreatedAt + 24 * Hour ↔
          env.clock w.tick = env.clock (w.tick + 1))) ∧
      d = { c with ExpiresAt := bsonTime c.ExpiresAt, CreatedAt := bsonTime c.CreatedAt } ∧
      (d.Status = "pending" ∧ d.FromVPA = cr.FromVPA ∧ d.Amount = cr.Amount ∧
        d.Note = cr.Note) ∧
      (d.ExpiresAt = bsonTime (env.clock w.tick) + 24 * Hour ∧
        d.CreatedAt = bsonTime (env.clock (w.tick + 1)) ∧
        (d.ExpiresAt = d.CreatedAt + 24 * Hour ↔
          env.clock w.tick / 1000000 = env.clock (w.tick + 1) / 1000000)) := by
  have hfind := vpaRepo.FindByUserID_ok env w oid hread0 hread1
  obtain ⟨v0, rest, hvs⟩ := List.exists_cons_of_ne_nil hact
  rw [hvs] at hfind
  obtain ⟨c, hc, hcol⟩ := Collect_ok env w w.op.op userID oid cr v0 rest hid
    (Float64.leZero_eq_false_of_gtZero _ hamt) hfind hwrite
  refine ⟨c, _, ?_, ?_, ?_, rfl, ?_, ?_⟩
  · rw [hcol]
    simp [World.op, Nat.add_assoc]
  · subst hc
    exact ⟨rfl, rfl, rfl, rfl⟩
  · subst hc
    refine ⟨rfl, rfl, ?_⟩
    simp [World.op]
  · subst hc
    exact ⟨rfl, rfl, rfl, rfl⟩
  · subst hc
    refine ⟨bsonTime_add_day _, rfl, ?_⟩
    show bsonTime (env.clock w.tick + 24 * Hour) =
        bsonTime (env.clock (w.tick + 1)) + 24 * Hour ↔
      env.clock w.tick / 1000000 = env.clock (w.tick + 1) / 1000000
    rw [bsonTime_add_day]
    exact bsonTime_day_eq_iff _ _

/-- Instance of C10: account `uidA` with its single VPA requests 50 from `b@bank`; the two
readings differ by a nanosecond within one millisecond. -/
theorem C10_collect_expiry_from_service_clock_witness :
    ∃ c d : CollectRequest,
      Collect env0 wA uidA ⟨"b@bank", f50, "n"⟩ =
        (.ok c, { db := { wA.db with collect_requests := wA.db.collect_requests ++ [d] },
                  tick := wA.tick + 2, ops := wA.ops + 3 }) ∧
      (c.Status = "pending" ∧ c.FromVPA = "b@bank" ∧ c.Amount = f50 ∧ c.Note = "n") ∧
      (c.ExpiresAt = env0.clock wA.tick + 24 * Hour ∧
        c.CreatedAt = env0.clock (wA.tick + 1) ∧
        (c.ExpiresAt = c.CreatedAt + 24 * Hour ↔
          env0.clock wA.tick = env0.clock (wA.tick + 1))) ∧
      d = { c with ExpiresAt := bsonTime c.ExpiresAt, CreatedAt := bsonTime c.CreatedAt } ∧
      (d.Status = "pending" ∧ d.FromVPA = "b@bank" ∧ d.Amount = f50 ∧ d.Note = "n") ∧
      (d.ExpiresAt = bsonTime (env0.clock wA.tick) + 24 * Hour ∧
        d.CreatedAt = bsonTime (env0.clock (wA.tick + 1)) ∧
        (d.ExpiresAt = d.CreatedAt + 24 * Hour ↔
          env0.clock wA.tick / 1000000 = env0.clock (wA.tick + 1) / 1000000)) :=
  C10_collect_expiry_from_service_clock env0 wA uidA oidA ⟨"b@bank", f50, "n"⟩ (by decide)
    (by decide) (by decide) rfl rfl rfl

/-- C11 (counterexample): account `uidA` holds an active VPA, the read of its VPAs fails
with a network error, and `Pay` reports "no VPA found for user" instead of that error. -/
theorem C11_read_failure_reported_as_no_vpa :
    (vpaRepo.FindByUserID envReadDown wA oidA).1 = .error (.Mongo (.Other "connection reset")) ∧
    (Pay envReadDown wA uidA ⟨"x@bank", f100, "n"⟩).1 = .error (.New "no VPA found for user") ∧
    (Pay envReadDown wA uidA ⟨"x@bank", f100, "n"⟩).1 ≠
      .error (.Mongo (.Other "connection reset")) :=
  ⟨rfl, rfl, by
    show Except.error (Err.New "no VPA found for user") ≠ _
    simp⟩

/-- C11, as the code has it: for a well-formed account id and every error `e` that a
repository call returns to the service, the operation fails with `e` itself, except that
`CreateVPA` turns a duplicate-key error into `ErrVPAExists`, `ValidateVPA` turns the
no-documents error into a successful answer with `Valid = false`, and `Pay`, `Collect` and
`CreateMandate` report every error of the VPA read as "no VPA found for user". -/
theorem C11_storage_errors_returned_or_translated (env : Env) (w : World) (userID : String) (oid : ObjectID)
    (address : String) (vr : CreateVPARequest) (pr : UPIPayRequest) (cr : CollectRequestInput)
    (mr : CreateMandateRequest) (page limit : Int) (e : Err)
    (hid : ObjectIDFromHex userID = some oid)
    (hp : pr.Amount.leZero = false) (hc : cr.Amount.leZero = false) :
    ((vpaRepo.Create env w
        { ID := NilObjectID, UserID := oid, Address := ToLower env vr.Prefix ++ bankSuffix,
          AccountID := vr.AccountID, IsDefault := true, IsActive := true,
          CreatedAt := zeroTime, UpdatedAt := zeroTime }).1 = some e →
      (CreateVPA env w userID vr).1 =
        .error (if IsDuplicateKeyError e then .ErrVPAExists else e)) ∧
    ((vpaRepo.FindByUserID env w oid).1 = .error e → (GetVPAs env w userID).1 = .error e) ∧
    ((vpaRepo.FindByAddress env w address).1 = .error e →
      (ValidateVPA env w address).1 =
        if IsErrNoDocuments e then .ok { VPA := address, Name := "", Valid := false }
        else .error e) ∧
    ((vpaRepo.FindByUserID env w oid).1 = .error e →
      (Pay env w userID pr).1 = .error (.New "no VPA found for user") ∧
      (Collect env w userID cr).1 = .error (.New "no VPA found for user") ∧
      (CreateMandate env w userID mr).1 = .error (.New "no VPA found for user")) ∧
    (∀ (v0 : VPA) (rest : List VPA) (w1 : World),
      vpaRepo.FindByUserID env w oid = (.ok (v0 :: rest), w1) →
      ((txnRepo.Create env (timeNow env (generateTxnID env w1).2).2
          { ID := NilObjectID, UserID := oid, TxnID := (generateTxnID env w1).1,
            Type_ := "pay", FromVPA := rangeDefault v0.Address (v0 :: rest),
            ToVPA := pr.ToVPA, Amount := pr.Amount, Note := pr.Note, Status := "success",
            FailureReason := "",
            TransactionDate := (timeNow env (generateTxnID env w1).2).1,
            CreatedAt := zeroTime }).1 = some e →
        (Pay env w userID pr).1 = .error e) ∧
      ((collectRepo.Create env (timeNow env w1).2
          { ID := NilObjectID, UserID := oid, FromVPA := cr.FromVPA,
            ToVPA := rangeDefault v0.Address (v0 :: rest), Amount := cr.Amount,
            Note := cr.Note, Status := "pending",
            ExpiresAt := Time.Add (timeNow env w1).1 (24 * Hour),
            CreatedAt := zeroTime }).1 = some e →
        (Collect env w userID cr).1 = .error e) ∧
      ((mandateRepo.Create env (generateMandateID env w1).2
          { ID := NilObjectID, UserID := oid, MandateID := (generateMandateID env w1).1,
            PayerVPA := v0.Address, PayeeVPA := mr.PayeeVPA, Amount := mr.Amount,
            Frequency := mr.Frequency, StartDate := mr.StartDate, EndDate := mr.EndDate,
            Purpose := mr.Purpose, Status := "active", CreatedAt := zeroTime,
            UpdatedAt := zeroTime }).1 = some e →
        (CreateMandate env w userID mr).1 = .error e)) ∧
    ((txnRepo.FindByUserID env w oid (if page < 1 then 1 else page)
        (if limit < 1 ∨ limit > 100 then 20 else limit)).1 = .error e →
      (GetTransactions env w userID page limit).1 = .error e) ∧
    ((mandateRepo.FindByUserID env w oid).1 = .error e →
      (GetMandates env w userID).1 = .error e) := by
  refine ⟨?_, ?_, ?_, ?_, ?_, ?_, ?_⟩
  · intro h
    simp only [CreateVPA, hid]
    generalize vpaRepo.Create env w _ = p at h ⊢
    obtain ⟨r, v, w1⟩ := p
    simp only at h
    subst h
    by_cases hd : IsDuplicateKeyError e = true <;> simp [hd]
  · intro h
    simpa [GetVPAs, hid] using h
  · intro h
    simp only [ValidateVPA]
    generalize vpaRepo.FindByAddress env w address = p at h ⊢
    obtain ⟨r, w1⟩ := p
    simp only at h
    subst h
    by_cases hd : IsErrNoDocuments e = true <;> simp [hd]
  · intro h
    simp only [Pay, Collect, CreateMandate, hid, hp, hc]
    generalize vpaRepo.FindByUserID env w oid = p at h ⊢
    obtain ⟨r, w1⟩ := p
    simp only at h
    subst h
    simp
  · intro v0 rest w1 hfind
    refine ⟨?_, ?_, ?_⟩
    · intro h
      simp only [Pay, hid, hp, hfind]
      generalize txnRepo.Create env _ _ = p at h ⊢
      obtain ⟨r, t, w2⟩ := p
      simp only at h
      subst h
      simp
    · intro h
      simp only [Collect, hid, hc, hfind]
      generalize collectRepo.Create env _ _ = p at h ⊢
      obtain ⟨r, t, w2⟩ := p
      simp only at h
      subst h
      simp
    · intro h
      simp only [CreateMandate, hid, hfind]
      generalize mandateRepo.Create env _ _ = p at h ⊢
      obtain ⟨r, t, w2⟩ := p
      simp only at h
      subst h
      simp
  · intro h
    simpa [GetTransactions, hid] using h
  · intro h
    simpa [GetMandates, hid] using h

/-- Instances of C11: a failed first driver call, a failed insert, a duplicate address, an
unknown address and a skip the server rejects. -/
theorem C11_storage_errors_returned_or_translated_witness :
    (CreateVPA envReadDown wA uidA ⟨"New.Name", "ACC2"⟩).1 = .error netErr ∧
    (CreateVPA env0 wA uidA ⟨"A", "ACC2"⟩).1 = .error .ErrVPAExists ∧
    (GetVPAs envReadDown wA uidA).1 = .error netErr ∧
    (ValidateVPA envReadDown wA "a@digitalbank").1 = .error netErr ∧
    (ValidateVPA env0 wA "nobody@digitalbank").1 =
      .ok { VPA := "nobody@digitalbank", Name := "", Valid := false } ∧
    ((Pay envReadDown wA uidA ⟨"x@bank", f100, "n"⟩).1 = .error (.New "no VPA found for user") ∧
      (Collect envReadDown wA uidA ⟨"b@bank", f50, "n"⟩).1 =
        .error (.New "no VPA found for user") ∧
      (CreateMandate envReadDown wA uidA ⟨"p@bank", f100, "monthly", 0, 1, "rent"⟩).1 =
        .error (.New "no VPA found for user")) ∧
    (Pay envWriteDown wA uidA ⟨"x@bank", f100, "n"⟩).1 = .error netErr ∧
    (Collect envWriteDown wA uidA ⟨"b@bank", f50, "n"⟩).1 = .error netErr ∧
    (CreateMandate envWriteDown wA uidA ⟨"p@bank", f100, "monthly", 0, 1, "rent"⟩).1 =
      .error netErr ∧
    (GetTransactions env0 wTx uidA 9223372036854775807 100).1 = .error (.Mongo .BadValue) ∧
    (GetMandates envReadDown wA uidA).1 = .error netErr :=
  have hR := C11_storage_errors_returned_or_translated envReadDown wA uidA oidA "a@digitalbank"
    ⟨"New.Name", "ACC2"⟩ ⟨"x@bank", f100, "n"⟩ ⟨"b@bank", f50, "n"⟩
    ⟨"p@bank", f100, "monthly", 0, 1, "rent"⟩ 1 20 netErr (by decide) (by decide) (by decide)
  have hW := C11_storage_errors_returned_or_translated envWriteDown wA uidA oidA "a@digitalbank"
    ⟨"New.Name", "ACC2"⟩ ⟨"x@bank", f100, "n"⟩ ⟨"b@bank", f50, "n"⟩
    ⟨"p@bank", f100, "monthly", 0, 1, "rent"⟩ 1 20 netErr (by decide) (by decide) (by decide)
  have hD := C11_storage_errors_returned_or_translated env0 wA uidA oidA "nobody@digitalbank"
    ⟨"A", "ACC2"⟩ ⟨"x@bank", f100, "n"⟩ ⟨"b@bank", f50, "n"⟩
    ⟨"p@bank", f100, "monthly", 0, 1, "rent"⟩ 1 20 (.Mongo .DuplicateKey)
    (by decide) (by decide) (by decide)
  have hN := C11_storage_errors_returned_or_translated env0 wA uidA oidA "nobody@digitalbank"
    ⟨"A", "ACC2"⟩ ⟨"x@bank", f100, "n"⟩ ⟨"b@bank", f50, "n"⟩
    ⟨"p@bank", f100, "monthly", 0, 1, "rent"⟩ 1 20 (.Mongo .ErrNoDocuments)
    (by decide) (by decide) (by decide)
  have hB := C11_storage_errors_returned_or_translated env0 wTx uidA oidA "nobody@digitalbank"
    ⟨"A", "ACC2"⟩ ⟨"x@bank", f100, "n"⟩ ⟨"b@bank", f50, "n"⟩
    ⟨"p@bank", f100, "monthly", 0, 1, "rent"⟩ 9223372036854775807 100 (.Mongo .BadValue)
    (by decide) (by decide) (by decide)
  have hWs := hW.2.2.2.2.1 vpaA [] wA.op.op rfl
  ⟨hR.1 rfl, hD.1 rfl, hR.2.1 rfl, hR.2.2.1 rfl, hN.2.2.1 rfl, hR.2.2.2.1 rfl,
    hWs.1 rfl, hWs.2.1 rfl, hWs.2.2 rfl, hB.2.2.2.2.2.1 rfl, hR.2.2.2.2.2.2 rfl⟩

/-- C12 (evaluation at the failing input): page `2^63 - 1` and limit 100 are `int64` values
that normalisation leaves as they are; the exact offset is 922337203685477580600, the
`int64` product is -200, and the query, asked to skip -200 records, is rejected. -/
theorem C12_skip_wraps_negative :
    (if (9223372036854775807 : Int) < 1 then 1 else 9223372036854775807) =
      (9223372036854775807 : Int) ∧
    (if (100 : Int) < 1 ∨ (100 : Int) > 100 then 20 else 100) = (100 : Int) ∧
    wrapInt64 (wrapInt64 (9223372036854775807 - 1) * 100) = -200 ∧
    ((9223372036854775807 - 1) * 100 : Int) = 922337203685477580600 ∧
    (GetTransactions env0 wTx uidA 9223372036854775807 100).1 = .error (.Mongo .BadValue) :=
  ⟨by decide, by decide, by decide, by decide, rfl⟩

/-! ## Further properties of the code -/

/-- Ledger query inside the `int64` range: for a normalised request (`page >= 1`, `limit` in
`[1,100]`) whose offset `(page - 1) * limit` is below `2^63`, and with no driver call failed,
the query returns the account's transactions sorted by `transaction_date` descending,
without the first `(page - 1) * limit` of them and cut to `limit`; every returned
transaction is a stored transaction of the account, and the total is the number of all
transactions of the account. -/
theorem txnRepo.FindByUserID_window (env : Env) (w : World) (oid : ObjectID) (page limit : Int)
    (h0 : env.fault w.ops = none) (h1 : env.fault (w.ops + 1) = none)
    (h2 : env.fault (w.ops + 2) = none)
    (hpage : 1 ≤ page) (hpmax : page < 2 ^ 63) (hlim : 1 ≤ limit ∧ limit ≤ 100)
    (hfit : (page - 1) * limit < 2 ^ 63) :
    ∃ txns total,
      txnRepo.FindByUserID env w oid page limit = (.ok (txns, total), w.op.op.op) ∧
      txns = (((w.db.upi_transactions.filter (fun t => t.UserID == oid)).insertionSort
        dateDesc).drop ((page - 1) * limit).toNat).take limit.toNat ∧
      txns.Sorted dateDesc ∧
      (∀ t ∈ txns, t.UserID = oid ∧ t ∈ w.db.upi_transactions) ∧
      total = (w.db.upi_transactions.filter (fun t => t.UserID == oid)).length := by
  have hw1 : wrapInt64 (page - 1) = page - 1 := wrapInt64_of_fits _ (by omega) (by omega)
  have hnn : 0 ≤ (page - 1) * limit := Int.mul_nonneg (by omega) (by omega)
  have hw2 : wrapInt64 ((page - 1) * limit) = (page - 1) * limit :=
    wrapInt64_of_fits _ (by omega) hfit
  have hl0 : limit ≠ 0 := by omega
  have hnat : limit.natAbs = limit.toNat := by omega
  refine ⟨_, _, ?_, rfl, ?_, ?_, rfl⟩
  · simp [txnRepo.FindByUserID, txns_CountDocuments, txns_Find, cursor_All, World.op, h0, h1, h2,
      hw1, hw2, hl0, hnat, not_lt.mpr hnn]
  · exact ((List.sorted_insertionSort dateDesc _).sublist
      (List.drop_sublist _ _)).sublist (List.take_sublist _ _)
  · intro t ht
    have hmem := (List.drop_sublist _ _).subset ((List.take_sublist _ _).subset ht)
    rw [List.mem_insertionSort] at hmem
    simpa [and_comm] using hmem


/-- Instance of the ledger query: page 2 with limit 2 of the three transactions of `oidA`. -/
theorem FindByUserID_window_witness :
    ∃ txns total,
      txnRepo.FindByUserID env0 wTx oidA 2 2 = (.ok (txns, total), wTx.op.op.op) ∧
      txns = (((wTx.db.upi_transactions.filter (fun t => t.UserID == oidA)).insertionSort
        dateDesc).drop ((2 - 1) * 2 : Int).toNat).take (2 : Int).toNat ∧
      txns.Sorted dateDesc ∧
      (∀ t ∈ txns, t.UserID = oidA ∧ t ∈ wTx.db.upi_transactions) ∧
      total = (wTx.db.upi_transactions.filter (fun t => t.UserID == oidA)).length :=
  txnRepo.FindByUserID_window env0 wTx oidA 2 2 rfl rfl rfl (by decide) (by decide)
    (by decide) (by decide)

/-- `CreateMandate` always takes the payer address from the first VPA the read returns,
flagged or not. -/
theorem CreateMandate_payer_is_head (env : Env) (w w1 : World) (userID : String)
    (oid : ObjectID) (mr : CreateMandateRequest) (v0 : VPA) (rest : List VPA) (m : Mandate)
    (hid : ObjectIDFromHex userID = some oid)
    (hfind : vpaRepo.FindByUserID env w oid = (.ok (v0 :: rest), w1))
    (hok : (CreateMandate env w userID mr).1 = .ok m) :
    m.PayerVPA = v0.Address := by
  simp only [CreateMandate, hid, hfind, mandateRepo.Create] at hok
  split at hok
  · simp at hok
  · rename_i heq
    simp only [Prod.mk.injEq] at heq
    simp only [Except.ok.injEq] at hok
    rw [← hok, ← heq.2.1]

/-- Instance: the first VPA returned is not flagged, and it is the payer. -/
theorem CreateMandate_payer_is_head_witness :
    (mkMandate oidA "MND1700000000000000000" "first@digitalbank").PayerVPA =
      vpaPlain.Address :=
  CreateMandate_payer_is_head env0 wTwo wTwo.op.op uidA oidA
    ⟨"p@bank", f100, "monthly", 0, 1, "rent"⟩ vpaPlain [vpaA]
    (mkMandate oidA "MND1700000000000000000" "first@digitalbank") (by decide) rfl rfl

/-- Driver errors that the repositories discard: when `cursor.All` fails, `GetVPAs` and
`GetMandates` succeed with an empty list; when `CountDocuments` fails, every successful
`GetTransactions` reports total 0. -/
theorem repository_discards_read_errors (env : Env) (w : World) (userID : String)
    (oid : ObjectID) (e : MongoErr) (hid : ObjectIDFromHex userID = some oid) :
    (env.fault w.ops = none → env.fault (w.ops + 1) = some e →
      (GetVPAs env w userID).1 = .ok [] ∧ (GetMandates env w userID).1 = .ok []) ∧
    (env.fault w.ops = some e →
      ∀ (page limit : Int) (r : List UPITransaction × Int),
        (GetTransactions env w userID page limit).1 = .ok r → r.2 = 0) := by
  constructor
  · intro h0 h1
    simp [GetVPAs, GetMandates, hid, vpaRepo.FindByUserID, mandateRepo.FindByUserID, vpas_Find,
      mandates_Find, cursor_All, World.op, h0, h1]
  · intro h0 page limit r hr
    simp only [GetTransactions, hid, txnRepo.FindByUserID, txns_CountDocuments, h0] at hr
    split at hr
    · simp at hr
    · split at hr <;> simp at hr <;> simp [← hr]

/-- Instances: the VPA of `uidA` is not listed when the cursor fails, and the three
transactions of `uidA` come with total 0 when the count fails. -/
theorem repository_discards_read_errors_witness :
    ((GetVPAs envCursorDown wA uidA).1 = .ok [] ∧ (GetMandates envCursorDown wA uidA).1 = .ok []) ∧
    (∃ r, (GetTransactions envReadDown wTx uidA 1 20).1 = .ok r ∧ r.1.length = 3 ∧ r.2 = 0) :=
  have h := repository_discards_read_errors envCursorDown wA uidA oidA (.Other "connection reset")
    (by decide)
  have h2 := repository_discards_read_errors envReadDown wTx uidA oidA (.Other "connection reset")
    (by decide)
  ⟨h.1 rfl rfl, ⟨_, rfl, rfl, h2.2 rfl 1 20 _ rfl⟩⟩

/-- Pages up to 92233720368547759: for every `limit`, the `int64` offset computed from the
normalised values is the exact product and is not negative, so the store accepts the skip
and, when the `Find` call is not failed from outside, `GetTransactions` succeeds. -/
theorem GetTransactions_skip_in_range (env : Env) (w : World) (userID : String) (oid : ObjectID)
    (page limit : Int) (hid : ObjectIDFromHex userID = some oid)
    (hp : page ≤ 92233720368547759) :
    wrapInt64 (wrapInt64 ((if page < 1 then 1 else page) - 1) *
        (if limit < 1 ∨ limit > 100 then 20 else limit)) =
      ((if page < 1 then 1 else page) - 1) * (if limit < 1 ∨ limit > 100 then 20 else limit) ∧
    0 ≤ ((if page < 1 then 1 else page) - 1) * (if limit < 1 ∨ limit > 100 then 20 else limit) ∧
    (env.fault (w.ops + 1) = none →
      ∃ r, (GetTransactions env w userID page limit).1 = .ok r) := by
  generalize hpe : (if page < 1 then 1 else page) = p
  generalize hle : (if limit < 1 ∨ limit > 100 then 20 else limit) = l
  have hp1 : 1 ≤ p ∧ p ≤ 92233720368547759 := by
    subst hpe
    split <;> omega
  have hl1 : 1 ≤ l ∧ l ≤ 100 := by
    subst hle
    split <;> omega
  have hnn : 0 ≤ (p - 1) * l := Int.mul_nonneg (by omega) (by omega)
  have hub : (p - 1) * l ≤ 92233720368547758 * 100 :=
    Int.mul_le_mul (by omega) hl1.2 (by omega) (by omega)
  have hw1 : wrapInt64 (p - 1) = p - 1 := wrapInt64_of_fits _ (by omega) (by omega)
  have hw2 : wrapInt64 ((p - 1) * l) = (p - 1) * l := wrapInt64_of_fits _ (by omega) (by omega)
  refine ⟨by rw [hw1, hw2], hnn, ?_⟩
  intro hf
  have hcount : (txns_CountDocuments env w oid).2 = w.op := by
    unfold txns_CountDocuments
    cases env.fault w.ops <;> rfl
  simp only [GetTransactions, hid, hpe, hle, txnRepo.FindByUserID, hw1, hw2, hcount]
  simp only [txns_Find, World.op, hf, not_lt.mpr hnn, if_false, cursor_All]
  cases env.fault (w.ops + 1 + 1) <;> simp

/-- Instance: page 3 with limit 500 (normalised to 20) skips 40 records. -/
theorem GetTransactions_skip_in_range_witness :
    wrapInt64 (wrapInt64 (3 - 1) * 20) = 40 ∧
    ∃ r, (GetTransactions env0 wTx uidA 3 500).1 = .ok r :=
  have h := GetTransactions_skip_in_range env0 wTx uidA oidA 3 500 (by decide) (by decide)
  ⟨h.1, h.2.2 rfl⟩

end UPI
